import Mathlib

/-!
Verification of the OVH acquisition-engine frontend sources.

Each definition below is a shallow embedding of a function or constant of
the repository; the file's theorems settle the specification's claims
against them.  JavaScript strings are `String`, JS `undefined`-able values
are `Option`, and JS truthiness of strings (`undefined` and `""` are falsy)
is made explicit.
-/

namespace OVH

/-! ## constants.ts (shared frontend/backend constant module) -/

/-- `TASK_RETRY_INTERVAL = 30` (seconds). -/
def TASK_RETRY_INTERVAL : Int := 30

/-- `MIN_RETRY_INTERVAL = 15` (seconds): lower bound on a task's retry interval. -/
def MIN_RETRY_INTERVAL : Int := 15

/-- `MAX_RETRY_INTERVAL = 3600` (seconds, one hour): upper bound on a task's retry interval. -/
def MAX_RETRY_INTERVAL : Int := 3600

/-- `validateRetryInterval(interval)`:
`interval >= MIN_RETRY_INTERVAL && interval <= MAX_RETRY_INTERVAL`. -/
def validateRetryInterval (interval : Int) : Bool :=
  decide (MIN_RETRY_INTERVAL ≤ interval) && decide (interval ≤ MAX_RETRY_INTERVAL)

/-! ## API_URL derivation (constants.ts) -/

/-- The browser `window.location` data the derivation consults. -/
structure BrowserWindow where
  origin : String
  hostname : String
deriving DecidableEq

/-- JS truthiness of an optional string: `undefined` and `""` are falsy. -/
def truthy : Option String → Bool
  | none => false
  | some s => s != ""

/-- The `API_URL` IIFE of constants.ts, as a function of the
`VITE_API_URL` environment value and the browser window (absent outside a
browser).  Mirrors the source branch for branch:
an env override starting with `/` is joined to the origin, any other
non-empty override is used verbatim; otherwise `localhost`/`127.0.0.1`
selects the local backend port and production uses the same-origin `/api`,
falling back to the bare relative `/api` outside a browser. -/
def computeApiUrl (envUrl : Option String) (window : Option BrowserWindow) : String :=
  if truthy envUrl then
    let u := envUrl.getD ""
    if u.startsWith "/" then
      let origin := (window.map BrowserWindow.origin).getD ""
      if origin != "" then origin ++ u else u
    else u
  else
    let hostname := (window.map BrowserWindow.hostname).getD ""
    if hostname = "localhost" ∨ hostname = "127.0.0.1" then
      "http://localhost:19998/api"
    else
      let origin := (window.map BrowserWindow.origin).getD ""
      if origin != "" then origin ++ "/api" else "/api"

/-- Modelled from the spec: the backend's default listen port
(`PORT` (default 19998) — listen port).  The backend server code is not
among the provided sources; only this default value is modelled. -/
def DEFAULT_PORT : Nat := 19998

/-! ## datacenters.ts -/

/-- The `DatacenterInfo` record of datacenters.ts. -/
structure DatacenterInfo where
  code : String
  name : String
  region : String
  flag : String
  countryCode : String
deriving DecidableEq

/-- The `OVH_DATACENTERS` table of datacenters.ts, entry for entry. -/
def OVH_DATACENTERS : List DatacenterInfo :=
  [ ⟨"gra", "格拉夫尼茨", "法国", "🇫🇷", "fr"⟩,
    ⟨"sbg", "斯特拉斯堡", "法国", "🇫🇷", "fr"⟩,
    ⟨"rbx", "鲁贝", "法国", "🇫🇷", "fr"⟩,
    ⟨"bhs", "博阿尔诺", "加拿大", "🇨🇦", "ca"⟩,
    ⟨"mum", "孟买", "印度", "🇮🇳", "in"⟩,
    ⟨"waw", "华沙", "波兰", "🇵🇱", "pl"⟩,
    ⟨"fra", "法兰克福", "德国", "🇩🇪", "de"⟩,
    ⟨"lon", "伦敦", "英国", "🇬🇧", "gb"⟩,
    ⟨"hil", "俄勒冈", "美国西部", "🇺🇸", "us"⟩,
    ⟨"vin", "弗吉尼亚", "美国东部", "🇺🇸", "us"⟩,
    ⟨"sgp", "新加坡", "新加坡", "🇸🇬", "sg"⟩,
    ⟨"syd", "悉尼", "澳大利亚", "🇦🇺", "au"⟩ ]

/-- A string of exactly three lowercase ASCII letters. -/
def isThreeLowerAscii (s : String) : Bool :=
  s.length == 3 && s.data.all (fun c => decide ('a' ≤ c) && decide (c ≤ 'z'))

/-! ## VPSMonitorPage.tsx -/

/-- The frontend `MonitorStatus` interface: the shape of the
`GET /vps-monitor/status` response as declared and consumed by the page. -/
structure MonitorStatus where
  running : Bool
  subscriptions_count : Nat
  check_interval : Nat
deriving DecidableEq

/-- The field names declared on the `MonitorStatus` interface, in source order. -/
def monitorStatusFieldNames : List String :=
  ["running", "subscriptions_count", "check_interval"]

/-- The `useState` initial value of `monitorStatus` in `VPSMonitorPage`. -/
def initialMonitorStatus : MonitorStatus :=
  { running := false, subscriptions_count := 0, check_interval := 60 }

/-- `loadMonitorStatus`: `setMonitorStatus(response.data)` replaces the
state with the status response wholesale. -/
def loadMonitorStatusUpdate (_old : MonitorStatus) (resp : MonitorStatus) : MonitorStatus :=
  resp

/-- The statistics card renders `{monitorStatus.subscriptions_count}`. -/
def displayedSubscriptionCount (s : MonitorStatus) : Nat :=
  s.subscriptions_count

/-- The statistics card renders `{monitorStatus.check_interval}s`. -/
def displayedCheckInterval (s : MonitorStatus) : Nat :=
  s.check_interval

/-- JS `String.prototype.split(',')`, character-wise: the list of
comma-separated segments (an empty input yields one empty segment, like JS). -/
def splitOnComma : List Char → List (List Char)
  | [] => [[]]
  | c :: rest =>
    let r := splitOnComma rest
    if c = ',' then [] :: r
    else
      match r with
      | [] => [[c]]
      | w :: ws => (c :: w) :: ws

/-- Drop leading whitespace characters. -/
def trimLeftChars : List Char → List Char
  | [] => []
  | c :: cs => if c.isWhitespace then trimLeftChars cs else c :: cs

/-- JS `String.prototype.trim()`, character-wise: drop whitespace at both ends. -/
def trimChars (cs : List Char) : List Char :=
  ((trimLeftChars ((trimLeftChars cs).reverse)).reverse)

/-- `handleAddSubscription`'s datacenter-field parsing:
`formData.datacenters.split(',').map(dc => dc.trim()).filter(dc => dc)`. -/
def parseDatacenters (s : String) : List String :=
  (((splitOnComma s.data).map (fun w => String.mk (trimChars w))).filter
    (fun dc => dc != ""))

/-- The `datacenters` array sent in the `POST /vps-monitor/subscriptions`
body: `datacenters.length > 0 ? datacenters : []`. -/
def sentDatacenters (s : String) : List String :=
  let datacenters := parseDatacenters s
  if datacenters.length > 0 then datacenters else []

/-- The subscription card's datacenter line:
`sub.datacenters.length > 0 ? ('监控数据中心: ' + joined) : '监控所有数据中心'`. -/
def subscriptionDatacentersText (datacenters : List String) : String :=
  if datacenters.length > 0 then
    "监控数据中心: " ++ String.intercalate ", " datacenters
  else
    "监控所有数据中心"

/-! ## Error-message extraction (VPSMonitorPage.tsx and the server-control page) -/

/-- An error response body as the frontend handlers probe it: the spec's
envelope field `error` and the alternative field `message`. -/
structure ErrorBody where
  error : Option String
  message : Option String
deriving DecidableEq

/-- JS `x || fallback` on an optional string: `undefined` and `""` select the fallback. -/
def jsOr (x : Option String) (fallback : String) : String :=
  match x with
  | some s => if s != "" then s else fallback
  | none => fallback

/-- `handleAddSubscription`: `error.response?.data?.message || '订阅失败'`. -/
def addSubscriptionErrorMsg (data : Option ErrorBody) : String :=
  jsOr (data.bind ErrorBody.message) "订阅失败"

/-- `handleHardwareReplace`: `error.response?.data?.error || '未知错误'`. -/
def hardwareReplaceErrorMsg (data : Option ErrorBody) : String :=
  jsOr (data.bind ErrorBody.error) "未知错误"

/-! ## Queue-list request shapes (Dashboard and LogsPage) -/

/-- A frontend HTTP request: method, path and the optional `scope` query parameter. -/
structure ApiRequest where
  method : String
  path : String
  scopeParam : Option String
deriving DecidableEq

/-- The Dashboard `fetchData` task-list request: `api.get('/queue/all')`. -/
def dashboardQueueRequest : ApiRequest :=
  ⟨"GET", "/queue/all", none⟩

/-- The LogsPage task-list request:
`api.get('/queue', { params: { scope: useScopeAll ? 'all' : undefined } })`. -/
def logsQueueRequest (useScopeAll : Bool) : ApiRequest :=
  ⟨"GET", "/queue", if useScopeAll then some "all" else none⟩

/-! ## HistoryPage (grouped view) -/

/-- A `PurchaseHistory` entry as the history page receives it.
`purchaseTime` is modelled by its epoch value, the number the page
obtains as `new Date(entry.purchaseTime).getTime()`; the optional `price`
record (floating-point amounts, never consulted by the grouped view) is
elided. -/
structure PurchaseHistory where
  id : String
  taskId : Option String
  planCode : String
  datacenter : String
  options : Option (List String)
  status : String
  orderId : Option String
  orderUrl : Option String
  errorMessage : Option String
  purchaseTime : Int
  sequence : Option Nat
  accountId : Option String
deriving DecidableEq

/-- The grouping key of the grouped view: `it.taskId || it.id`
(JS `||`: an absent or empty `taskId` falls back to the entry's own id). -/
def historyKey (it : PurchaseHistory) : String :=
  match it.taskId with
  | some t => if t != "" then t else it.id
  | none => it.id

/-- `Map.set` key registration: a key not yet present is appended, so the
`Map` iterates keys in first-encounter order. -/
def insertKey (ks : List String) (k : String) : List String :=
  if k ∈ ks then ks else ks ++ [k]

/-- The keys of the grouped view's `Map`, in first-encounter order. -/
def orderedKeys (l : List PurchaseHistory) : List String :=
  l.foldl (fun ks it => insertKey ks (historyKey it)) []

/-- Insert one entry into a list kept in non-increasing `purchaseTime`
order; models the effect of the comparator
`(a, b) => new Date(b.purchaseTime).getTime() - new Date(a.purchaseTime).getTime()`. -/
def insertDesc (x : PurchaseHistory) : List PurchaseHistory → List PurchaseHistory
  | [] => [x]
  | y :: ys =>
    if x.purchaseTime ≤ y.purchaseTime then y :: insertDesc x ys
    else x :: y :: ys

/-- `items.sort((a, b) => ...)`: sort a group's entries by `purchaseTime`,
newest first. -/
def sortByTimeDesc (l : List PurchaseHistory) : List PurchaseHistory :=
  l.foldr insertDesc []

/-- One rendered group of the grouped view. -/
structure HistoryGroup where
  key : String
  items : List PurchaseHistory
deriving DecidableEq

/-- The grouped view: entries are bucketed by `historyKey` into a `Map`
(keys in first-encounter order, each bucket in encounter order) and every
bucket is sorted by `purchaseTime`, newest first. -/
def groupedHistory (l : List PurchaseHistory) : List HistoryGroup :=
  (orderedKeys l).map fun k =>
    ⟨k, sortByTimeDesc (l.filter (fun it => historyKey it == k))⟩

/-- The group header's time range
`g.items[g.items.length-1].purchaseTime ~ g.items[0].purchaseTime`:
the pair (oldest shown time, newest shown time). -/
def timeRange (items : List PurchaseHistory) : Int × Int :=
  (((items.getLast?).map PurchaseHistory.purchaseTime).getD 0,
   ((items.head?).map PurchaseHistory.purchaseTime).getD 0)

/-- A task row as the list-tasks endpoint filters it. -/
structure TaskRow where
  id : String
  accountId : String
deriving DecidableEq

/-- Modelled from the spec: the backend `GET /queue?scope=self|all` handler
(list tasks, filtered to the requesting account unless `all`).  The backend
HTTP control plane is not among the provided sources. -/
def listTasksSpec (scope : Option String) (requester : String) (tasks : List TaskRow) :
    List TaskRow :=
  if scope = some "all" then tasks
  else tasks.filter (fun t => t.accountId == requester)

/-! ## Theorems -/

/-- Claim C1: `validateRetryInterval` enforces the 15-second floor:
it accepts 15, rejects 14, and rejects every integer below
`MIN_RETRY_INTERVAL`. -/
theorem validateRetryInterval_floor :
    validateRetryInterval 15 = true ∧ validateRetryInterval 14 = false ∧
    ∀ n : Int, n < MIN_RETRY_INTERVAL → validateRetryInterval n = false := by
  refine ⟨by decide, by decide, ?_⟩
  intro n hn
  have h : ¬ (MIN_RETRY_INTERVAL ≤ n) := by
    simp only [MIN_RETRY_INTERVAL] at hn ⊢
    omega
  simp [validateRetryInterval, h]

/-- Witness for C1 at the concrete rejected input 14. -/
theorem validateRetryInterval_floor_witness :
    (14 : Int) < MIN_RETRY_INTERVAL ∧ validateRetryInterval 14 = false :=
  ⟨by decide, validateRetryInterval_floor.2.2 14 (by decide)⟩

/-- Claim C9: `validateRetryInterval` also enforces the upper bound
`MAX_RETRY_INTERVAL` (3600): every integer above it is rejected, and the
function accepts exactly the integers in `[15, 3600]`. -/
theorem validateRetryInterval_range (n : Int) :
    (MAX_RETRY_INTERVAL < n → validateRetryInterval n = false) ∧
    (validateRetryInterval n = true ↔
      MIN_RETRY_INTERVAL ≤ n ∧ n ≤ MAX_RETRY_INTERVAL) := by
  constructor
  · intro hn
    have h : ¬ (n ≤ MAX_RETRY_INTERVAL) := by
      simp only [MAX_RETRY_INTERVAL] at hn ⊢
      omega
    simp [validateRetryInterval, h]
  · simp [validateRetryInterval]

/-- Witness for C9 at the concrete rejected input 3601. -/
theorem validateRetryInterval_range_witness :
    MAX_RETRY_INTERVAL < (3601 : Int) ∧ validateRetryInterval 3601 = false :=
  ⟨by decide, (validateRetryInterval_range 3601).1 (by decide)⟩

/-- Claim C10: every code in `OVH_DATACENTERS` is exactly three lowercase
ASCII letters, and the codes are pairwise distinct. -/
theorem ovhDatacenters_codes :
    (OVH_DATACENTERS.all fun d => isThreeLowerAscii d.code) = true ∧
    (OVH_DATACENTERS.map DatacenterInfo.code).Nodup := by
  decide

/-- Claim C7: with no `VITE_API_URL` override set (JS-falsy) and the page
served from `localhost` or `127.0.0.1`, `API_URL` evaluates to
`http://localhost:19998/api`, matching the backend's default listen port. -/
theorem apiUrl_localhost (envUrl : Option String) (origin host : String)
    (henv : truthy envUrl = false)
    (hhost : host = "localhost" ∨ host = "127.0.0.1") :
    computeApiUrl envUrl (some ⟨origin, host⟩) =
      "http://localhost:" ++ toString DEFAULT_PORT ++ "/api" := by
  have hval : computeApiUrl envUrl (some ⟨origin, host⟩) =
      "http://localhost:19998/api" := by
    unfold computeApiUrl
    rw [henv]
    rcases hhost with rfl | rfl <;> simp
  rw [hval]
  rfl

/-- Witness for C7 at a concrete localhost environment. -/
theorem apiUrl_localhost_witness :
    truthy none = false ∧
    computeApiUrl none (some ⟨"http://localhost:5173", "localhost"⟩) =
      "http://localhost:" ++ toString DEFAULT_PORT ++ "/api" :=
  ⟨rfl, apiUrl_localhost none "http://localhost:5173" "localhost" rfl (Or.inl rfl)⟩

/-- Claim C2: an operator datacenters input that parses to no non-empty
code makes the subscription-create request send `datacenters = []`, and an
empty datacenters list is presented as monitoring all datacenters. -/
theorem emptyDatacenters_means_all (s : String)
    (h : parseDatacenters s = []) :
    sentDatacenters s = [] ∧
    subscriptionDatacentersText (sentDatacenters s) = "监控所有数据中心" := by
  have hs : sentDatacenters s = [] := by
    simp [sentDatacenters, h]
  refine ⟨hs, ?_⟩
  rw [hs]
  rfl

/-- Witness for C2 at the concrete input consisting only of commas and
whitespace. -/
theorem emptyDatacenters_means_all_witness :
    parseDatacenters " , ," = [] ∧
    sentDatacenters " , ," = [] ∧
    subscriptionDatacentersText (sentDatacenters " , ,") = "监控所有数据中心" := by
  have h : parseDatacenters " , ," = [] := by decide
  exact ⟨h, emptyDatacenters_means_all " , ," h⟩

/-- Counterexample to claim C5: the status record's fields, as declared and
consumed by the frontend, are not named `subscriptionCount` and
`checkInterval`. -/
theorem monitorStatus_fields_not_camelCase :
    ¬ ("subscriptionCount" ∈ monitorStatusFieldNames ∧
       "checkInterval" ∈ monitorStatusFieldNames) := by
  decide

/-- Claim C5 (amended): the status record's fields are named `running`,
`subscriptions_count` and `check_interval` (snake_case), and the page's
statistics cards read the count and interval from those fields. -/
theorem monitorStatus_fields_snakeCase :
    monitorStatusFieldNames = ["running", "subscriptions_count", "check_interval"] ∧
    ∀ s : MonitorStatus,
      displayedSubscriptionCount s = s.subscriptions_count ∧
      displayedCheckInterval s = s.check_interval :=
  ⟨rfl, fun _ => ⟨rfl, rfl⟩⟩

/-- Claim C8: before any status response arrives the monitor status
defaults to running = false, 0 subscriptions and a 60-second check
interval, and after a response the displayed check interval is exactly the
reported one. -/
theorem monitorStatus_default (resp : MonitorStatus) :
    initialMonitorStatus.running = false ∧
    initialMonitorStatus.subscriptions_count = 0 ∧
    initialMonitorStatus.check_interval = 60 ∧
    displayedCheckInterval (loadMonitorStatusUpdate initialMonitorStatus resp) =
      resp.check_interval :=
  ⟨rfl, rfl, rfl, rfl⟩

/-- Counterexample to claim C6: on a response carrying only the envelope's
`error` field, the subscription-create handler displays its generic
fallback, not the envelope's message — it reads the field named `message`. -/
theorem addSubscription_ignores_error_field :
    addSubscriptionErrorMsg (some ⟨some "subscription limit reached", none⟩) =
      "订阅失败" ∧
    ("订阅失败" : String) ≠ "subscription limit reached" :=
  ⟨rfl, by decide⟩

/-- Claim C6 (amended): the hardware-replace handler displays the field
named `error`, but the subscription-create handler displays the field
named `message` (falling back to a generic string). -/
theorem errorMsg_field_read (e m : String) (he : e ≠ "") (hm : m ≠ "") :
    hardwareReplaceErrorMsg (some ⟨some e, some m⟩) = e ∧
    addSubscriptionErrorMsg (some ⟨some e, some m⟩) = m := by
  constructor
  · simp [hardwareReplaceErrorMsg, jsOr, he]
  · simp [addSubscriptionErrorMsg, jsOr, hm]

/-- Witness for the amended C6 at concrete non-empty field values. -/
theorem errorMsg_field_read_witness :
    ("boom" : String) ≠ "" ∧ ("msg" : String) ≠ "" ∧
    hardwareReplaceErrorMsg (some ⟨some "boom", some "msg"⟩) = "boom" ∧
    addSubscriptionErrorMsg (some ⟨some "boom", some "msg"⟩) = "msg" :=
  ⟨by decide, by decide, errorMsg_field_read "boom" "msg" (by decide) (by decide)⟩

/-- Counterexample to claim C4: the dashboard's full-task-list request uses
the path `/queue/all`, not the `GET /queue` shape with a scope parameter. -/
theorem dashboard_not_queue_scope :
    dashboardQueueRequest.path = "/queue/all" ∧
    dashboardQueueRequest.path ≠ "/queue" ∧
    dashboardQueueRequest ≠ ⟨"GET", "/queue", some "all"⟩ :=
  ⟨rfl, by decide, by decide⟩

/-- Claim C4 (amended): the list-tasks operation `GET /queue` with an
optional `scope` parameter (`all` for the full list, omitted for self) is
used by the logs page, and the spec-modelled handler filters to the
requesting account unless scope is `all`; the dashboard's full-task-list
request instead uses `GET /queue/all`. -/
theorem queue_list_requests (r : String) (ts : List TaskRow) (t : TaskRow) :
    logsQueueRequest true = ⟨"GET", "/queue", some "all"⟩ ∧
    logsQueueRequest false = ⟨"GET", "/queue", none⟩ ∧
    dashboardQueueRequest = ⟨"GET", "/queue/all", none⟩ ∧
    listTasksSpec (some "all") r ts = ts ∧
    (t ∈ listTasksSpec none r ts → t.accountId = r) := by
  refine ⟨rfl, rfl, rfl, by simp [listTasksSpec], ?_⟩
  intro ht
  simp [listTasksSpec] at ht
  exact ht.2

/-- Witness for the amended C4 at a concrete task list. -/
theorem queue_list_requests_witness :
    TaskRow.mk "t1" "acct" ∈
      listTasksSpec none "acct" [⟨"t1", "acct"⟩, ⟨"t2", "other"⟩] ∧
    (TaskRow.mk "t1" "acct").accountId = "acct" :=
  ⟨by decide,
   (queue_list_requests "acct" [⟨"t1", "acct"⟩, ⟨"t2", "other"⟩]
     ⟨"t1", "acct"⟩).2.2.2.2 (by decide)⟩

/-! ### Lemmas about the grouped history view -/

theorem mem_insertDesc {x z : PurchaseHistory} {l : List PurchaseHistory} :
    z ∈ insertDesc x l ↔ z = x ∨ z ∈ l := by
  induction l with
  | nil => simp [insertDesc]
  | cons y ys ih =>
    by_cases h : x.purchaseTime ≤ y.purchaseTime
    · simp only [insertDesc, if_pos h, List.mem_cons, ih]
      tauto
    · simp only [insertDesc, if_neg h, List.mem_cons]

theorem perm_insertDesc (x : PurchaseHistory) (l : List PurchaseHistory) :
    List.Perm (insertDesc x l) (x :: l) := by
  induction l with
  | nil => exact List.Perm.refl _
  | cons y ys ih =>
    by_cases h : x.purchaseTime ≤ y.purchaseTime
    · simp only [insertDesc, if_pos h]
      exact (List.Perm.cons y ih).trans (List.Perm.swap x y ys)
    · simp only [insertDesc, if_neg h]
      exact List.Perm.refl _

theorem sortByTimeDesc_perm (l : List PurchaseHistory) :
    List.Perm (sortByTimeDesc l) l := by
  induction l with
  | nil => exact List.Perm.refl _
  | cons x xs ih =>
    simp only [sortByTimeDesc, List.foldr_cons]
    exact (perm_insertDesc x _).trans (List.Perm.cons x ih)

theorem pairwise_insertDesc {x : PurchaseHistory} {l : List PurchaseHistory}
    (hl : l.Pairwise (fun a b => b.purchaseTime ≤ a.purchaseTime)) :
    (insertDesc x l).Pairwise (fun a b => b.purchaseTime ≤ a.purchaseTime) := by
  induction l with
  | nil => simp [insertDesc]
  | cons y ys ih =>
    rcases List.pairwise_cons.mp hl with ⟨hy, hys⟩
    by_cases h : x.purchaseTime ≤ y.purchaseTime
    · simp only [insertDesc, if_pos h]
      refine List.pairwise_cons.mpr ⟨?_, ih hys⟩
      intro z hz
      rcases mem_insertDesc.mp hz with rfl | hz2
      · exact h
      · exact hy z hz2
    · simp only [insertDesc, if_neg h]
      refine List.pairwise_cons.mpr ⟨?_, hl⟩
      intro z hz
      rcases List.mem_cons.mp hz with rfl | hz2
      · omega
      · have := hy z hz2
        omega

theorem sortByTimeDesc_pairwise (l : List PurchaseHistory) :
    (sortByTimeDesc l).Pairwise (fun a b => b.purchaseTime ≤ a.purchaseTime) := by
  induction l with
  | nil => simp [sortByTimeDesc]
  | cons x xs ih =>
    simp only [sortByTimeDesc, List.foldr_cons] at ih ⊢
    exact pairwise_insertDesc ih

theorem pairwise_head_max {l : List PurchaseHistory}
    (hp : l.Pairwise (fun a b => b.purchaseTime ≤ a.purchaseTime))
    (hne : l ≠ []) :
    ∀ it ∈ l, it.purchaseTime ≤ (l.head hne).purchaseTime := by
  cases l with
  | nil => cases hne rfl
  | cons a as =>
    intro it hit
    rcases List.mem_cons.mp hit with rfl | h
    · exact le_rfl
    · exact (List.pairwise_cons.mp hp).1 it h

theorem pairwise_last_min {l : List PurchaseHistory}
    (hp : l.Pairwise (fun a b => b.purchaseTime ≤ a.purchaseTime)) :
    ∀ hne : l ≠ [], ∀ it ∈ l, (l.getLast hne).purchaseTime ≤ it.purchaseTime := by
  induction l with
  | nil => intro hne; cases hne rfl
  | cons a as ih =>
    intro hne it hit
    rcases List.pairwise_cons.mp hp with ⟨ha, has⟩
    by_cases h : as = []
    · subst h
      rcases List.mem_singleton.mp hit with rfl
      exact le_rfl
    · rw [List.getLast_cons h]
      rcases List.mem_cons.mp hit with rfl | h2
      · exact ha _ (List.getLast_mem h)
      · exact ih has h it h2

theorem mem_insertKey {ks : List String} {k k2 : String} :
    k2 ∈ insertKey ks k ↔ k2 ∈ ks ∨ k2 = k := by
  unfold insertKey
  split
  · constructor
    · exact Or.inl
    · rintro (h | rfl)
      · exact h
      · assumption
  · simp [List.mem_append]

theorem mem_orderedKeys_aux (l : List PurchaseHistory) (acc : List String)
    (k : String) :
    k ∈ l.foldl (fun ks it => insertKey ks (historyKey it)) acc →
    k ∈ acc ∨ ∃ it ∈ l, historyKey it = k := by
  induction l generalizing acc with
  | nil => intro h; exact Or.inl h
  | cons x xs ih =>
    intro h
    simp only [List.foldl_cons] at h
    rcases ih (insertKey acc (historyKey x)) h with h2 | ⟨it, hit, hk⟩
    · rcases mem_insertKey.mp h2 with h3 | rfl
      · exact Or.inl h3
      · exact Or.inr ⟨x, List.mem_cons_self x xs, rfl⟩
    · exact Or.inr ⟨it, List.mem_cons_of_mem x hit, hk⟩

theorem mem_orderedKeys {l : List PurchaseHistory} {k : String} :
    k ∈ orderedKeys l → ∃ it ∈ l, historyKey it = k := by
  intro h
  rcases mem_orderedKeys_aux l [] k h with h2 | h2
  · cases h2
  · exact h2

/-- Claim C3: every group of the grouped history view holds exactly the
entries whose key (`taskId`, falling back to the entry id) is the group's
key, sorted by `purchaseTime` newest-first; the group is non-empty, its
first item is most recent and its last item oldest, and the header's time
range runs from the last item's time to the first item's. -/
theorem groupedHistory_ordering (l : List PurchaseHistory) (g : HistoryGroup)
    (hg : g ∈ groupedHistory l) :
    List.Perm g.items (l.filter (fun it => historyKey it == g.key)) ∧
    (∀ it ∈ g.items, historyKey it = g.key) ∧
    g.items.Pairwise (fun a b => b.purchaseTime ≤ a.purchaseTime) ∧
    g.items ≠ [] ∧
    ∀ hne : g.items ≠ [],
      (∀ it ∈ g.items,
        it.purchaseTime ≤ (g.items.head hne).purchaseTime ∧
        (g.items.getLast hne).purchaseTime ≤ it.purchaseTime) ∧
      timeRange g.items =
        ((g.items.getLast hne).purchaseTime, (g.items.head hne).purchaseTime) := by
  rcases List.mem_map.mp hg with ⟨k, hk, rfl⟩
  have hperm : List.Perm (sortByTimeDesc (l.filter (fun it => historyKey it == k)))
      (l.filter (fun it => historyKey it == k)) := sortByTimeDesc_perm _
  have hpair := sortByTimeDesc_pairwise (l.filter (fun it => historyKey it == k))
  have hkey : ∀ it ∈ sortByTimeDesc (l.filter (fun it => historyKey it == k)),
      historyKey it = k := by
    intro it hit
    have hmem := hperm.mem_iff.mp hit
    have := (List.mem_filter.mp hmem).2
    exact beq_iff_eq.mp this
  have hne : sortByTimeDesc (l.filter (fun it => historyKey it == k)) ≠ [] := by
    rcases mem_orderedKeys hk with ⟨it, hit, hkit⟩
    have hmem : it ∈ l.filter (fun it => historyKey it == k) :=
      List.mem_filter.mpr ⟨hit, beq_iff_eq.mpr hkit⟩
    have hmem2 := hperm.mem_iff.mpr hmem
    exact List.ne_nil_of_mem hmem2
  refine ⟨hperm, hkey, hpair, hne, ?_⟩
  intro hne2
  refine ⟨fun it hit => ⟨pairwise_head_max hpair hne2 it hit,
    pairwise_last_min hpair hne2 it hit⟩, ?_⟩
  simp [timeRange, List.getLast?_eq_getLast _ hne2, List.head?_eq_head hne2]

/-- Witness for C3 at a concrete three-entry history with a two-attempt task. -/
theorem groupedHistory_ordering_witness :
    (⟨"T", [⟨"h2", some "T", "24sk202", "gra", none, "failed", none, none,
              some "sold out", 300, none, none⟩,
            ⟨"h1", some "T", "24sk202", "gra", none, "success", some "ord_1", none,
              none, 100, some 1, none⟩]⟩ : HistoryGroup) ∈
      groupedHistory
        [⟨"h1", some "T", "24sk202", "gra", none, "success", some "ord_1", none,
            none, 100, some 1, none⟩,
         ⟨"h2", some "T", "24sk202", "gra", none, "failed", none, none,
            some "sold out", 300, none, none⟩,
         ⟨"h3", none, "24sk203", "rbx", none, "success", none, none,
            none, 200, some 1, none⟩] ∧
    ([⟨"h2", some "T", "24sk202", "gra", none, "failed", none, none,
        some "sold out", 300, none, none⟩,
      ⟨"h1", some "T", "24sk202", "gra", none, "success", some "ord_1", none,
        none, 100, some 1, none⟩] :
      List PurchaseHistory).Pairwise (fun a b => b.purchaseTime ≤ a.purchaseTime) :=
  ⟨by decide,
   (groupedHistory_ordering
     [⟨"h1", some "T", "24sk202", "gra", none, "success", some "ord_1", none,
         none, 100, some 1, none⟩,
      ⟨"h2", some "T", "24sk202", "gra", none, "failed", none, none,
         some "sold out", 300, none, none⟩,
      ⟨"h3", none, "24sk203", "rbx", none, "success", none, none,
         none, 200, some 1, none⟩]
     ⟨"T", [⟨"h2", some "T", "24sk202", "gra", none, "failed", none, none,
              some "sold out", 300, none, none⟩,
            ⟨"h1", some "T", "24sk202", "gra", none, "success", some "ord_1", none,
              none, 100, some 1, none⟩]⟩
     (by decide)).2.2.1⟩

end OVH
